import Mathlib

/-!
Shallow embedding of the `lambda-durable-functions` sample handlers:
`strands-research-agent/src/agent.py`, `payment-processor/src/app.py` and
`payment-processor/src/admin_api.py`.  The pieces of the durable-execution
SDK that the handlers call (step caching, parallel fan-out, callbacks) are
not part of the repository; where a property depends on them they are
modelled from the design document and marked `Modelled from the spec`.
-/

namespace Reinvent

/-- Retry decision returned by a retry strategy (`RetryDecision` in the SDK):
either stop retrying, or retry after the given delay.  Delays in seconds are
modelled as exact rationals. -/
inductive RetryDecision where
  | no_retry : RetryDecision
  | retry (delaySeconds : ℚ) : RetryDecision
deriving Repr, DecidableEq

/-- The Bedrock retry strategy of `strands-research-agent/src/agent.py`
(lines 117-121): stop as soon as `attempt_count >= 3`, otherwise retry after
`2 * 2 ** (attempt_count - 1)` seconds.  The error argument is ignored by the
source function. -/
def bedrock_retry_strategy (_error : String) (attempt_count : Nat) : RetryDecision :=
  if attempt_count ≥ 3 then RetryDecision.no_retry
  else RetryDecision.retry (2 * 2 ^ (attempt_count - 1))

/-- Retry configuration used by the payment processor:
`RetryStrategyConfig(max_attempts=3, backoff_rate=2.0)`. -/
structure RetryStrategyConfig where
  max_attempts : Nat
  backoff_rate : ℚ
deriving Repr, DecidableEq

/-- Modelled from the spec: `create_retry_strategy` of the durable-execution
SDK is not in the repository; the design document specifies the built-in
exponential backoff policy as `delay = base * 2^(attempt_count-1)` with
1-based `attempt_count`, capped at a configured maximum attempt count.  The
base delay (2 seconds in the claim) is passed explicitly since
`RetryStrategyConfig` carries only the attempt cap and the backoff rate. -/
def create_retry_strategy (cfg : RetryStrategyConfig) (base : ℚ)
    (_error : String) (attempt_count : Nat) : RetryDecision :=
  if attempt_count ≥ cfg.max_attempts then RetryDecision.no_retry
  else RetryDecision.retry (base * cfg.backoff_rate ^ (attempt_count - 1))

/-- C1 (counterexample): the claim says that for every attempt `n` the
evaluator decides retry with delay `2 * 2^(n-1)` and first returns stop when
called on attempt 4; but already on attempt 3 `bedrock_retry_strategy`
returns `no_retry`, not `retry 8`. -/
theorem C1_counterexample :
    bedrock_retry_strategy "ThrottlingException" 3 = RetryDecision.no_retry ∧
    bedrock_retry_strategy "ThrottlingException" 3 ≠ RetryDecision.retry (2 * 2 ^ (3 - 1)) := by
  constructor
  · rfl
  · decide

/-- C1 (amended): with base 2 s and `max_attempts = 3`, the evaluator retries
with delay `2 * 2^(n-1)` seconds for attempts `n = 1, 2` (2 s, then 4 s) and
first returns stop on attempt 3, i.e. whenever `attempt_count ≥ 3`; moreover
the spec-modelled `create_retry_strategy` instantiated with
`max_attempts = 3`, `backoff_rate = 2` and base 2 s agrees with
`bedrock_retry_strategy` on every input. -/
theorem C1_retry_policy (e : String) (n : Nat) :
    (1 ≤ n → n < 3 → bedrock_retry_strategy e n = RetryDecision.retry (2 * 2 ^ (n - 1))) ∧
    (3 ≤ n → bedrock_retry_strategy e n = RetryDecision.no_retry) ∧
    bedrock_retry_strategy e 1 = RetryDecision.retry 2 ∧
    bedrock_retry_strategy e 2 = RetryDecision.retry 4 ∧
    create_retry_strategy ⟨3, 2⟩ 2 e n = bedrock_retry_strategy e n := by
  refine ⟨?_, ?_, ?_, ?_, ?_⟩
  · intro _ h2
    rw [bedrock_retry_strategy, if_neg (by omega)]
  · intro h
    rw [bedrock_retry_strategy, if_pos (by omega)]
  · norm_num [bedrock_retry_strategy]
  · norm_num [bedrock_retry_strategy]
  · simp [create_retry_strategy, bedrock_retry_strategy]

/-- C1 (witness): the amended retry policy evaluated at attempts 2 and 4. -/
theorem C1_retry_policy_witness :
    bedrock_retry_strategy "ThrottlingException" 2 = RetryDecision.retry (2 * 2 ^ (2 - 1)) ∧
    bedrock_retry_strategy "ThrottlingException" 4 = RetryDecision.no_retry :=
  ⟨(C1_retry_policy "ThrottlingException" 2).1 (by decide) (by decide),
   (C1_retry_policy "ThrottlingException" 4).2.1 (by decide)⟩

/-- One payment record of the DynamoDB `payments` table, with the attributes
the handlers read or write.  Attributes a record may lack are `Option`s;
Python truthiness of a string attribute is `truthyStr` below. -/
structure PaymentRecord where
  amount : String
  status : String
  created_at : Nat
  updated_at : Nat
  callback_id : Option String := none
  reason : Option String := none
  risk_score : Option String := none
  transaction_id : Option String := none
  reviewer : Option String := none
deriving Repr, DecidableEq

/-- The payments table: a point-lookup map from `payment_id` to the record. -/
abbrev Store := String → Option PaymentRecord

/-- Write (create or replace) one record, as DynamoDB `put_item` /
`update_item` on the key. -/
def Store.put (store : Store) (payment_id : String) (item : PaymentRecord) : Store :=
  fun q => if q = payment_id then some item else store q

/-- The empty payments table. -/
def emptyStore : Store := fun _ => none

/-- Python truthiness of an optional string attribute: present and non-empty. -/
def truthyStr : Option String → Bool
  | none => false
  | some s => s ≠ ""

/-- `TERMINAL_STATUSES = {'COMPLETED', 'REJECTED'}` (app.py line 31). -/
def TERMINAL_STATUSES : List String := ["COMPLETED", "REJECTED"]

/-- The `**extra_fields` that callers of `update_payment_status` pass:
each field is present (`some`) or absent (`none`). -/
structure ExtraFields where
  callback_id : Option String := none
  reason : Option String := none
  risk_score : Option String := none
  transaction_id : Option String := none
deriving Repr, DecidableEq

/-- Apply an update-expression field: a supplied extra field overwrites the
stored attribute, an absent one leaves it. -/
def ovr (newVal oldVal : Option String) : Option String :=
  match newVal with
  | some v => some v
  | none => oldVal

/-- `update_payment_status` (app.py lines 34-65): load the record (missing
record: return); refuse to leave a terminal status for a non-terminal one;
re-entering `AWAITING_APPROVAL` is a no-op; a `callback_id` extra field is
dropped when the record already has a non-empty `callback_id`; otherwise set
`status`, `updated_at` and the remaining extra fields. -/
def update_payment_status (store : Store) (payment_id status : String)
    (extra_fields : ExtraFields) (now : Nat) : Store :=
  match store payment_id with
  | none => store
  | some item =>
    if TERMINAL_STATUSES.contains item.status && !(TERMINAL_STATUSES.contains status) then
      store
    else if status == "AWAITING_APPROVAL" && item.status == "AWAITING_APPROVAL" then
      store
    else
      let extra :=
        if extra_fields.callback_id.isSome && truthyStr item.callback_id then
          { extra_fields with callback_id := none }
        else extra_fields
      Store.put store payment_id
        { amount := item.amount
          status := status
          created_at := item.created_at
          updated_at := now
          callback_id := ovr extra.callback_id item.callback_id
          reason := ovr extra.reason item.reason
          risk_score := ovr extra.risk_score item.risk_score
          transaction_id := ovr extra.transaction_id item.transaction_id
          reviewer := item.reviewer }

/-- C2: terminal-state invariant — when the stored status of a payment is in
`TERMINAL_STATUSES = {COMPLETED, REJECTED}` and `update_payment_status` is
called with a non-terminal status, the whole table (hence the record: status,
`updated_at` and every extra field) is left unchanged. -/
theorem C2_terminal_frozen (store : Store) (pid status : String)
    (extra : ExtraFields) (now : Nat) (item : PaymentRecord)
    (hget : store pid = some item)
    (hterm : TERMINAL_STATUSES.contains item.status = true)
    (hnon : TERMINAL_STATUSES.contains status = false) :
    update_payment_status store pid status extra now = store := by
  have hc : (TERMINAL_STATUSES.contains item.status
      && !(TERMINAL_STATUSES.contains status)) = true := by
    rw [hterm, hnon]
    rfl
  unfold update_payment_status
  rw [hget]
  dsimp only
  rw [if_pos hc]

/-- C2 (witness): a COMPLETED record is not overwritten by `VALIDATED`. -/
theorem C2_terminal_frozen_witness :
    update_payment_status
      (Store.put emptyStore "p1"
        { amount := "25", status := "COMPLETED", created_at := 1, updated_at := 2 })
      "p1" "VALIDATED" {} 99
    = Store.put emptyStore "p1"
        { amount := "25", status := "COMPLETED", created_at := 1, updated_at := 2 } :=
  C2_terminal_frozen _ _ _ _ _ _ rfl (by decide) (by decide)

/-- C7: duplicate suppression — re-entering `AWAITING_APPROVAL` when the
stored status is already `AWAITING_APPROVAL` is a complete no-op (the table is
unchanged, so the existing `callback_id` survives); and on a record whose
`callback_id` is non-empty, no call to `update_payment_status`, whatever the
new status and extra fields, ever changes the record's `callback_id`. -/
theorem C7_duplicate_suppression (store : Store) (pid : String)
    (extra : ExtraFields) (now : Nat) (item : PaymentRecord)
    (hget : store pid = some item) :
    (item.status = "AWAITING_APPROVAL" →
      update_payment_status store pid "AWAITING_APPROVAL" extra now = store) ∧
    (truthyStr item.callback_id = true → ∀ status,
      ((update_payment_status store pid status extra now) pid).map PaymentRecord.callback_id
        = some item.callback_id) := by
  constructor
  · intro hA
    have h1 : ¬ ((TERMINAL_STATUSES.contains item.status
        && !(TERMINAL_STATUSES.contains "AWAITING_APPROVAL")) = true) := by
      rw [hA]
      decide
    have h2 : (("AWAITING_APPROVAL" == "AWAITING_APPROVAL")
        && (item.status == "AWAITING_APPROVAL")) = true := by
      rw [hA]
      rfl
    unfold update_payment_status
    rw [hget]
    dsimp only
    rw [if_neg h1, if_pos h2]
  · intro hcb status
    unfold update_payment_status
    rw [hget]
    dsimp only
    by_cases h1 : (TERMINAL_STATUSES.contains item.status
        && !(TERMINAL_STATUSES.contains status)) = true
    · rw [if_pos h1, hget]
      rfl
    · rw [if_neg h1]
      by_cases h2 : ((status == "AWAITING_APPROVAL")
          && (item.status == "AWAITING_APPROVAL")) = true
      · rw [if_pos h2, hget]
        rfl
      · rw [if_neg h2]
        cases hex : extra.callback_id with
        | none => simp [hex, Store.put, ovr]
        | some c => simp [hex, hcb, Store.put, ovr]

/-- C7 (witness): both parts at a concrete awaiting-approval record. -/
theorem C7_duplicate_suppression_witness :
    (update_payment_status
        (Store.put emptyStore "p2"
          { amount := "1500", status := "AWAITING_APPROVAL", created_at := 1,
            updated_at := 2, callback_id := some "cb-old" })
        "p2" "AWAITING_APPROVAL" { callback_id := some "cb-new" } 99
      = Store.put emptyStore "p2"
          { amount := "1500", status := "AWAITING_APPROVAL", created_at := 1,
            updated_at := 2, callback_id := some "cb-old" }) ∧
    ((update_payment_status
        (Store.put emptyStore "p2"
          { amount := "1500", status := "AWAITING_APPROVAL", created_at := 1,
            updated_at := 2, callback_id := some "cb-old" })
        "p2" "APPROVED" { callback_id := some "cb-new" } 99) "p2").map
        PaymentRecord.callback_id = some (some "cb-old") :=
  ⟨(C7_duplicate_suppression _ "p2" _ 99 _ rfl).1 rfl,
   (C7_duplicate_suppression _ "p2" _ 99 _ rfl).2 (by decide) "APPROVED"⟩

/-- `RISK_SCORE_THRESHOLD` with its default value `0.7` (app.py line 24);
the float literal is the exact rational `7/10`, written `mkRat` so that it
evaluates by kernel reduction. -/
def RISK_SCORE_THRESHOLD : ℚ := mkRat 7 10

/-- Python `round(q, 4)` used for the stored `risk_score` string (modelled
with round-half-up; the stored string plays no role in any claim). -/
def round4 (q : ℚ) : ℚ := mkRat ⌊q * 10000 + mkRat 1 2⌋ 10000

/-- The risk score computed by `check_fraud` (app.py lines 104-112):
amounts are exact rationals, so the Python float arithmetic is exact here
(`0.1` is `mkRat 1 10`, and so on). -/
def riskScore (amount : ℚ) : ℚ :=
  if amount < 100 then mkRat 1 10
  else if amount < 500 then mkRat 4 10
  else if amount < 1000 then mkRat 6 10
  else min (mkRat 7 10 + (amount / 10000) * mkRat 3 10) 1

/-- The risk score rewritten with ordinary division, for arithmetic proofs. -/
theorem riskScore_eq (a : ℚ) : riskScore a =
    if a < 100 then 1/10
    else if a < 500 then 4/10
    else if a < 1000 then 6/10
    else min (7/10 + (a / 10000) * (3/10)) 1 := by
  unfold riskScore
  norm_num [Rat.mkRat_eq_div]

/-- The default threshold as a plain fraction. -/
theorem RISK_SCORE_THRESHOLD_eq : RISK_SCORE_THRESHOLD = 7/10 := by
  unfold RISK_SCORE_THRESHOLD
  norm_num [Rat.mkRat_eq_div]

/-- The dict returned by `validate_payment` on success. -/
structure ValidatedDict where
  payment_id : String
  status : String
  amount : ℚ
deriving Repr, DecidableEq

/-- The dict returned by `check_fraud`. -/
structure FraudDict where
  payment_id : String
  risk_score : ℚ
  requires_review : Bool
deriving Repr, DecidableEq

/-- The dict returned by `charge_payment`. -/
structure ChargeDict where
  payment_id : String
  transaction_id : String
  status : String
deriving Repr, DecidableEq

/-- The dict returned by `send_notification`. -/
structure NotifyDict where
  payment_id : String
  notification_sent : Bool
deriving Repr, DecidableEq

/-- `validate_payment` (app.py lines 68-96): create the record with status
`VALIDATING` only if it does not exist (conditional `put_item`); a
non-positive amount (a missing amount defaults to 0) marks the record
`REJECTED` with reason `invalid_amount` and raises `ValueError`, modelled as
`Except.error`; otherwise the record is marked `VALIDATED` and the dict
`{payment_id, status: "validated", amount}` is returned. -/
def validate_payment (store : Store) (payment_id : String) (amountOpt : Option ℚ)
    (now : Nat) : Except String ValidatedDict × Store :=
  let amount := amountOpt.getD 0
  let store1 :=
    match store payment_id with
    | some _ => store
    | none =>
      Store.put store payment_id
        { amount := toString amount, status := "VALIDATING",
          created_at := now, updated_at := now }
  if amount ≤ 0 then
    (Except.error "Invalid amount",
     update_payment_status store1 payment_id "REJECTED" { reason := some "invalid_amount" } now)
  else
    (Except.ok { payment_id := payment_id, status := "validated", amount := amount },
     update_payment_status store1 payment_id "VALIDATED" {} now)

/-- `check_fraud` (app.py lines 99-120): deterministic risk score from the
amount, record marked `FRAUD_CHECKED`, and `requires_review` is
`risk_score > RISK_SCORE_THRESHOLD`. -/
def check_fraud (store : Store) (payment_id : String) (amount : ℚ) (now : Nat) :
    FraudDict × Store :=
  let risk_score := riskScore amount
  ({ payment_id := payment_id, risk_score := risk_score,
     requires_review := decide (RISK_SCORE_THRESHOLD < risk_score) },
   update_payment_status store payment_id "FRAUD_CHECKED"
     { risk_score := some (toString (round4 risk_score)) } now)

/-- `charge_payment` (app.py lines 123-131): the random 4-digit suffix of the
transaction id is passed in explicitly. -/
def charge_payment (store : Store) (payment_id : String) (_amount : ℚ)
    (rand now : Nat) : ChargeDict × Store :=
  let transaction_id := "txn_" ++ payment_id ++ "_" ++ toString rand
  ({ payment_id := payment_id, transaction_id := transaction_id, status := "charged" },
   update_payment_status store payment_id "CHARGED"
     { transaction_id := some transaction_id } now)

/-- `send_notification` (app.py lines 134-139): marks the record `COMPLETED`. -/
def send_notification (store : Store) (payment_id transaction_id : String)
    (now : Nat) : NotifyDict × Store :=
  ({ payment_id := payment_id, notification_sent := true },
   update_payment_status store payment_id "COMPLETED"
     { transaction_id := some transaction_id } now)

/-- The dict returned by `set_awaiting_approval`. -/
structure AwaitingDict where
  status : String
deriving Repr, DecidableEq

/-- `set_awaiting_approval` (app.py lines 142-151). -/
def set_awaiting_approval (store : Store) (payment_id callback_id : String)
    (risk_score : ℚ) (now : Nat) : AwaitingDict × Store :=
  (⟨"awaiting_approval"⟩,
   update_payment_status store payment_id "AWAITING_APPROVAL"
     { callback_id := some callback_id,
       risk_score := some (toString (round4 risk_score)) } now)

/-- The dict returned by `handle_approval_result`. -/
structure ApprovalDict where
  approved : Bool
deriving Repr, DecidableEq

/-- `handle_approval_result` (app.py lines 154-161): approved payments are
marked `APPROVED`, everything else `REJECTED` with reason
`approval_denied_or_timeout`. -/
def handle_approval_result (store : Store) (payment_id : String) (approved : Bool)
    (now : Nat) : ApprovalDict × Store :=
  if approved then
    (⟨true⟩, update_payment_status store payment_id "APPROVED" {} now)
  else
    (⟨false⟩,
     update_payment_status store payment_id "REJECTED"
       { reason := some "approval_denied_or_timeout" } now)

/-- Updating a record never deletes it: a key present before
`update_payment_status` is present afterwards. -/
theorem update_keeps_mem (store : Store) (p q status : String)
    (extra : ExtraFields) (now : Nat) (it : PaymentRecord)
    (hq : store q = some it) :
    ∃ it2, (update_payment_status store p status extra now) q = some it2 := by
  unfold update_payment_status
  cases hp : store p with
  | none => exact ⟨it, hq⟩
  | some itemp =>
    dsimp only
    split
    · exact ⟨it, hq⟩
    · split
      · exact ⟨it, hq⟩
      · unfold Store.put
        by_cases hqp : q = p
        · exact ⟨_, by rw [if_pos hqp]⟩
        · exact ⟨it, by rw [if_neg hqp]; exact hq⟩

/-- Setting status `REJECTED` with a reason always goes through (REJECTED is
itself terminal, and is not the `AWAITING_APPROVAL` re-entry), producing the
old record with the new status, `updated_at`, and reason. -/
theorem update_reject_at (store : Store) (p rsn : String) (now : Nat)
    (item : PaymentRecord) (hp : store p = some item) :
    (update_payment_status store p "REJECTED" { reason := some rsn } now) p
      = some { item with status := "REJECTED", updated_at := now, reason := some rsn } := by
  have h1 : ¬ ((TERMINAL_STATUSES.contains item.status
      && !(TERMINAL_STATUSES.contains "REJECTED")) = true) := by
    simp [TERMINAL_STATUSES]
  have h2 : ¬ ((("REJECTED" : String) == "AWAITING_APPROVAL")
      && (item.status == "AWAITING_APPROVAL")) = true := by
    rw [show (("REJECTED" : String) == "AWAITING_APPROVAL") = false from rfl]
    simp
  unfold update_payment_status
  rw [hp]
  dsimp only
  rw [if_neg h1, if_neg h2]
  simp [Store.put, ovr]

/-- The risk score is at least `0.1` for every amount. -/
theorem riskScore_lb (a : ℚ) : 1/10 ≤ riskScore a := by
  rw [riskScore_eq]
  split_ifs with h1 h2 h3
  · norm_num
  · norm_num
  · norm_num
  · rw [le_min_iff]
    constructor
    · push_neg at h3
      linarith
    · norm_num

/-- The risk score is at most `1` for every amount. -/
theorem riskScore_ub (a : ℚ) : riskScore a ≤ 1 := by
  rw [riskScore_eq]
  split_ifs with h1 h2 h3
  · norm_num
  · norm_num
  · norm_num
  · exact min_le_right _ _

/-- The risk score exceeds the default threshold `0.7` exactly for amounts of
at least 1000. -/
theorem riskScore_gt_iff (a : ℚ) : RISK_SCORE_THRESHOLD < riskScore a ↔ 1000 ≤ a := by
  rw [RISK_SCORE_THRESHOLD_eq, riskScore_eq]
  split_ifs with h1 h2 h3
  · constructor <;> intro h <;> linarith
  · constructor <;> intro h <;> linarith
  · constructor <;> intro h <;> linarith
  · push_neg at h3
    constructor
    · intro _
      linarith
    · intro _
      rw [lt_min_iff]
      constructor <;> linarith

/-- C10: `check_fraud`'s returned risk assessment is a pure deterministic
function of the amount — `0.1` below 100, `0.4` on `[100, 500)`, `0.6` on
`[500, 1000)`, and `min(0.7 + (amount/10000)*0.3, 1.0)` from 1000 up — so the
risk score always lies in `[0.1, 1.0]`, and with the default
`RISK_SCORE_THRESHOLD = 0.7` the `requires_review` flag is true iff the
amount is at least 1000. -/
theorem C10_risk_assessment (store : Store) (pid : String) (amount : ℚ) (now : Nat) :
    (check_fraud store pid amount now).1.payment_id = pid ∧
    (check_fraud store pid amount now).1.risk_score = riskScore amount ∧
    (amount < 100 → (check_fraud store pid amount now).1.risk_score = 1/10) ∧
    (100 ≤ amount → amount < 500 →
      (check_fraud store pid amount now).1.risk_score = 4/10) ∧
    (500 ≤ amount → amount < 1000 →
      (check_fraud store pid amount now).1.risk_score = 6/10) ∧
    (1000 ≤ amount →
      (check_fraud store pid amount now).1.risk_score
        = min (7/10 + (amount / 10000) * (3/10)) 1) ∧
    1/10 ≤ (check_fraud store pid amount now).1.risk_score ∧
    (check_fraud store pid amount now).1.risk_score ≤ 1 ∧
    ((check_fraud store pid amount now).1.requires_review = true ↔ 1000 ≤ amount) := by
  have hrs : (check_fraud store pid amount now).1.risk_score = riskScore amount := rfl
  refine ⟨rfl, rfl, ?_, ?_, ?_, ?_, ?_, ?_, ?_⟩
  · intro h
    rw [hrs, riskScore_eq, if_pos h]
  · intro h1 h2
    rw [hrs, riskScore_eq, if_neg (not_lt.mpr h1), if_pos h2]
  · intro h1 h2
    rw [hrs, riskScore_eq, if_neg (not_lt.mpr (by linarith)),
      if_neg (not_lt.mpr h1), if_pos h2]
  · intro h
    rw [hrs, riskScore_eq, if_neg (not_lt.mpr (by linarith)),
      if_neg (not_lt.mpr (by linarith)), if_neg (not_lt.mpr h)]
  · rw [hrs]
    exact riskScore_lb amount
  · rw [hrs]
    exact riskScore_ub amount
  · rw [show (check_fraud store pid amount now).1.requires_review
        = decide (RISK_SCORE_THRESHOLD < riskScore amount) from rfl,
      decide_eq_true_iff]
    exact riskScore_gt_iff amount

/-- C10 (witness): a 2000-unit payment gets risk score `0.76` and requires
review. -/
theorem C10_risk_assessment_witness :
    (check_fraud emptyStore "pw" 2000 0).1.risk_score
      = min (7/10 + ((2000 : ℚ) / 10000) * (3/10)) 1 ∧
    ((check_fraud emptyStore "pw" 2000 0).1.requires_review = true ↔ (1000 : ℚ) ≤ 2000) :=
  ⟨(C10_risk_assessment emptyStore "pw" 2000 0).2.2.2.2.2.1 (by norm_num),
   (C10_risk_assessment emptyStore "pw" 2000 0).2.2.2.2.2.2.2.2⟩

/-- C5: `validate_payment` fails (raises, modelled as `Except.error`) exactly
when the defaulted amount is non-positive; in that case the stored record
ends with status `REJECTED` and reason `invalid_amount`; otherwise it returns
the dict `{payment_id, status: "validated", amount}` with the inputs
verbatim. -/
theorem C5_validate_payment (store : Store) (pid : String) (amountOpt : Option ℚ)
    (now : Nat) :
    (amountOpt.getD 0 ≤ 0 →
      (validate_payment store pid amountOpt now).1 = Except.error "Invalid amount" ∧
      ((validate_payment store pid amountOpt now).2 pid).map PaymentRecord.status
        = some "REJECTED" ∧
      ((validate_payment store pid amountOpt now).2 pid).map PaymentRecord.reason
        = some (some "invalid_amount")) ∧
    (0 < amountOpt.getD 0 →
      (validate_payment store pid amountOpt now).1
        = Except.ok { payment_id := pid, status := "validated",
                      amount := amountOpt.getD 0 }) := by
  constructor
  · intro h
    have hrec : ∃ item : PaymentRecord,
        (validate_payment store pid amountOpt now).2 pid
          = some { item with
              status := "REJECTED", updated_at := now,
              reason := some "invalid_amount" } := by
      unfold validate_payment
      dsimp only
      rw [if_pos h]
      dsimp only
      cases hsp : store pid with
      | some it =>
        exact ⟨it, update_reject_at store pid _ now it hsp⟩
      | none =>
        refine ⟨{ amount := toString (amountOpt.getD 0), status := "VALIDATING", created_at := now, updated_at := now }, update_reject_at _ pid _ now _ ?_⟩
        simp [Store.put]
    obtain ⟨item, hrec⟩ := hrec
    refine ⟨?_, ?_, ?_⟩
    · unfold validate_payment
      dsimp only
      rw [if_pos h]
    · rw [hrec]
      rfl
    · rw [hrec]
      rfl
  · intro h2
    unfold validate_payment
    dsimp only
    rw [if_neg (by linarith : ¬ amountOpt.getD 0 ≤ 0)]

/-- C5 (witness): a negative amount is rejected, a positive one validated. -/
theorem C5_validate_payment_witness :
    (validate_payment emptyStore "p5" (some (-5)) 7).1 = Except.error "Invalid amount" ∧
    (validate_payment emptyStore "p5" (some 50) 7).1
      = Except.ok { payment_id := "p5", status := "validated", amount := 50 } :=
  ⟨((C5_validate_payment emptyStore "p5" (some (-5)) 7).1
      (by rw [Option.getD_some]; norm_num)).1,
   (C5_validate_payment emptyStore "p5" (some 50) 7).2
      (by rw [Option.getD_some]; norm_num)⟩

/-- Outcome of the signed HTTP POST that `handle_approval` sends to the
Lambda durable-execution callback endpoint: either a 2xx response or an
`HTTPError` with the given status code (400 is what the endpoint returns for
an already-resolved callback). -/
inductive CallbackHttp where
  | ok : CallbackHttp
  | httpError (code : Nat) : CallbackHttp
deriving Repr, DecidableEq

/-- The JSON HTTP response built by the admin API handlers (statusCode plus
the body fields used by `handle_approval`). -/
structure ApiResponse where
  statusCode : Nat
  error : Option String := none
  success : Bool := false
  approved : Option Bool := none
  payment_id : Option String := none
deriving Repr, DecidableEq

/-- `handle_approval` (admin_api.py lines 119-193).  Inputs: the request
body's `payment_id`, the approve/reject flag, and the outcome of the
downstream callback HTTP call.  Output: the HTTP response, the resulting
table, and whether the callback request was sent at all.  An `HTTPError`
with code 400 from the callback endpoint is swallowed (`if e.code != 400:
raise`); any other code propagates to the outer handler, which answers 500
before the DynamoDB update runs. -/
def handle_approval (store : Store) (body_payment_id : Option String)
    (approved : Bool) (cb : CallbackHttp) (now : Nat) :
    ApiResponse × Store × Bool :=
  if truthyStr body_payment_id = false then
    ({ statusCode := 400, error := some "payment_id required" }, store, false)
  else
    let payment_id := body_payment_id.getD ""
    match store payment_id with
    | none => ({ statusCode := 404, error := some "Payment not found" }, store, false)
    | some item =>
      if item.status ≠ "AWAITING_APPROVAL" then
        ({ statusCode := 400,
           error := some ("Payment status is " ++ item.status ++ ", not AWAITING_APPROVAL") },
         store, false)
      else if truthyStr item.callback_id = false then
        ({ statusCode := 400, error := some "No callback_id found" }, store, false)
      else
        let new_status := if approved then "APPROVED" else "REJECTED"
        let finish : ApiResponse × Store × Bool :=
          ({ statusCode := 200, success := true, approved := some approved,
             payment_id := some payment_id },
           Store.put store payment_id
             { item with
                 status := new_status, updated_at := now, reviewer := some "admin" },
           true)
        match cb with
        | CallbackHttp.ok => finish
        | CallbackHttp.httpError code =>
          if code ≠ 400 then
            ({ statusCode := 500, error := some "HTTPError" }, store, true)
          else finish

/-- C6: precondition checks of `handle_approval` — a missing `payment_id`
yields 400, an absent record 404, a status other than `AWAITING_APPROVAL`
400, and a missing `callback_id` 400; in each case no callback is delivered
and the table is unchanged. -/
theorem C6_approval_preconditions (store : Store) (bpid : Option String)
    (approved : Bool) (cb : CallbackHttp) (now : Nat) :
    (truthyStr bpid = false →
      handle_approval store bpid approved cb now
        = ({ statusCode := 400, error := some "payment_id required" }, store, false)) ∧
    (truthyStr bpid = true → store (bpid.getD "") = none →
      handle_approval store bpid approved cb now
        = ({ statusCode := 404, error := some "Payment not found" }, store, false)) ∧
    (∀ item, truthyStr bpid = true → store (bpid.getD "") = some item →
      item.status ≠ "AWAITING_APPROVAL" →
      handle_approval store bpid approved cb now
        = ({ statusCode := 400,
             error := some ("Payment status is " ++ item.status ++ ", not AWAITING_APPROVAL") },
           store, false)) ∧
    (∀ item, truthyStr bpid = true → store (bpid.getD "") = some item →
      item.status = "AWAITING_APPROVAL" → truthyStr item.callback_id = false →
      handle_approval store bpid approved cb now
        = ({ statusCode := 400, error := some "No callback_id found" }, store, false)) := by
  refine ⟨?_, ?_, ?_, ?_⟩
  · intro h
    unfold handle_approval
    rw [if_pos h]
  · intro h1 h2
    unfold handle_approval
    rw [if_neg (by rw [h1]; simp)]
    dsimp only
    rw [h2]
  · intro item h1 h2 h3
    unfold handle_approval
    rw [if_neg (by rw [h1]; simp)]
    dsimp only
    rw [h2]
    dsimp only
    rw [if_pos h3]
  · intro item h1 h2 h3 h4
    unfold handle_approval
    rw [if_neg (by rw [h1]; simp)]
    dsimp only
    rw [h2]
    dsimp only
    rw [if_neg (by rw [h3]; simp), if_pos h4]

/-- C6 (witness): all four precondition failures at concrete inputs. -/
theorem C6_approval_preconditions_witness :
    handle_approval emptyStore none true CallbackHttp.ok 3
      = ({ statusCode := 400, error := some "payment_id required" }, emptyStore, false) ∧
    handle_approval emptyStore (some "p6") true CallbackHttp.ok 3
      = ({ statusCode := 404, error := some "Payment not found" }, emptyStore, false) := by
  constructor
  · exact (C6_approval_preconditions emptyStore none true CallbackHttp.ok 3).1 rfl
  · exact (C6_approval_preconditions emptyStore (some "p6") true CallbackHttp.ok 3).2.1
      (by decide) rfl

/-- A payment record sitting in `AWAITING_APPROVAL` with a callback id, used
as the C4 test fixture. -/
def recAwaiting : PaymentRecord :=
  { amount := "2000", status := "AWAITING_APPROVAL", created_at := 1, updated_at := 2,
    callback_id := some "cb-1", risk_score := some "0.76" }

/-- Table holding only `recAwaiting` under key `p1`. -/
def storeC4 : Store := Store.put emptyStore "p1" recAwaiting

/-- C4 (counterexample): when the callback endpoint reports the
AlreadyResolved condition as HTTP 400, `handle_approval` does NOT fail and
does NOT leave the record unchanged — it swallows the 400, answers 200 with
`success = true`, and rewrites the record's status, reviewer and
`updated_at`. -/
theorem C4_counterexample :
    (handle_approval storeC4 (some "p1") true (CallbackHttp.httpError 400) 99).1.statusCode
      = 200 ∧
    (handle_approval storeC4 (some "p1") true (CallbackHttp.httpError 400) 99).1.success
      = true ∧
    ((handle_approval storeC4 (some "p1") true (CallbackHttp.httpError 400) 99).2.1 "p1")
      ≠ storeC4 "p1" := by
  refine ⟨rfl, rfl, ?_⟩
  decide

/-- C4 (amended): on a record awaiting approval with a callback id, an
`HTTPError` other than 400 from the callback endpoint makes `handle_approval`
fail with a 500 response and alter nothing, while an `HTTPError` 400 (the
AlreadyResolved condition) is deliberately tolerated: the handler still
updates the record's status, reviewer and `updated_at` and returns a 200
success response. -/
theorem C4_already_resolved (store : Store) (bpid : Option String)
    (approved : Bool) (now code : Nat) (item : PaymentRecord)
    (h1 : truthyStr bpid = true)
    (h2 : store (bpid.getD "") = some item)
    (h3 : item.status = "AWAITING_APPROVAL")
    (h4 : truthyStr item.callback_id = true) :
    (code ≠ 400 →
      handle_approval store bpid approved (CallbackHttp.httpError code) now
        = ({ statusCode := 500, error := some "HTTPError" }, store, true)) ∧
    (code = 400 →
      handle_approval store bpid approved (CallbackHttp.httpError code) now
        = ({ statusCode := 200, success := true, approved := some approved,
             payment_id := some (bpid.getD "") },
           Store.put store (bpid.getD "")
             { item with
                 status := if approved then "APPROVED" else "REJECTED",
                 updated_at := now, reviewer := some "admin" },
           true)) := by
  constructor
  · intro hc
    unfold handle_approval
    rw [if_neg (by rw [h1]; simp)]
    dsimp only
    rw [h2]
    dsimp only
    rw [if_neg (by rw [h3]; simp), if_neg (by rw [h4]; simp)]
    rw [if_pos hc]
  · intro hc
    unfold handle_approval
    rw [if_neg (by rw [h1]; simp)]
    dsimp only
    rw [h2]
    dsimp only
    rw [if_neg (by rw [h3]; simp), if_neg (by rw [h4]; simp)]
    rw [if_neg (by rw [hc]; simp)]

/-- C4 (witness): both branches of the amended claim at the fixture record. -/
theorem C4_already_resolved_witness :
    handle_approval storeC4 (some "p1") false (CallbackHttp.httpError 500) 99
      = ({ statusCode := 500, error := some "HTTPError" }, storeC4, true) ∧
    handle_approval storeC4 (some "p1") false (CallbackHttp.httpError 400) 99
      = ({ statusCode := 200, success := true, approved := some false,
           payment_id := some "p1" },
         Store.put storeC4 "p1"
           { recAwaiting with
               status := if false then "APPROVED" else "REJECTED",
               updated_at := 99, reviewer := some "admin" },
         true) :=
  ⟨(C4_already_resolved storeC4 (some "p1") false 99 500 recAwaiting
      (by decide) rfl rfl (by decide)).1 (by decide),
   (C4_already_resolved storeC4 (some "p1") false 99 400 recAwaiting
      (by decide) rfl rfl (by decide)).2 rfl⟩

/-- A Python value delivered by `review_callback.result()` as the handler
sees it (app.py lines 217-223).  `dict b` is a dict whose
`.get("approved") == True` test evaluates to `b`; `jstrOk v` is a string that
`json.loads` parses to the value `v`; `jstrBad` is a string on which
`json.loads` raises `JSONDecodeError` (e.g. the string `not json`); `other`
is any other value — in particular the timeout outcome, which the design
document specifies as a distinguished non-dict `TIMED_OUT` value. -/
inductive ReviewVal where
  | dict (approvedEqTrue : Bool) : ReviewVal
  | jstrOk (parsed : ReviewVal) : ReviewVal
  | jstrBad : ReviewVal
  | other : ReviewVal
deriving Repr, DecidableEq

/-- `if isinstance(review_result, str): review_result = json.loads(review_result)`
(app.py lines 220-221), with the `JSONDecodeError` raise modelled as
`Except.error`. -/
def pyLoadsIfStr : ReviewVal → Except String ReviewVal
  | ReviewVal.jstrBad => Except.error "JSONDecodeError"
  | ReviewVal.jstrOk v => Except.ok v
  | v => Except.ok v

/-- `isinstance(review_result, dict) and review_result.get("approved") == True`
(app.py line 223). -/
def isApprovedDict : ReviewVal → Bool
  | ReviewVal.dict b => b
  | _ => false

/-- The claim's scope predicate: a dict, or a JSON string decoding to a dict,
whose `approved` key equals `True`. -/
def isApprovalValue : ReviewVal → Bool
  | ReviewVal.dict b => b
  | ReviewVal.jstrOk v => isApprovedDict v
  | _ => false

/-- One step/operation invocation of the workflow body, labelled by the
`payment_id` argument it was invoked with. -/
inductive OpCall where
  | validate (pid : String) : OpCall
  | checkFraud (pid : String) : OpCall
  | verifyCustomer (pid : String) : OpCall
  | setAwaiting (pid : String) : OpCall
  | handleApproval (pid : String) : OpCall
  | charge (pid : String) : OpCall
  | notify (pid : String) : OpCall
deriving Repr, DecidableEq

/-- The payment id an operation was invoked with. -/
def OpCall.pid : OpCall → String
  | OpCall.validate p => p
  | OpCall.checkFraud p => p
  | OpCall.verifyCustomer p => p
  | OpCall.setAwaiting p => p
  | OpCall.handleApproval p => p
  | OpCall.charge p => p
  | OpCall.notify p => p

/-- Whether the operation is the `validate_payment` step. -/
def OpCall.isValidate : OpCall → Bool
  | OpCall.validate _ => true
  | _ => false

/-- Whether the operation is the `charge_payment` step. -/
def OpCall.isCharge : OpCall → Bool
  | OpCall.charge _ => true
  | _ => false

/-- The `event["payment"]` dict of the workflow trigger: an optional
`payment_id` (Python-falsy when absent or empty) and an optional amount. -/
structure PaymentEvent where
  payment_id : Option String := none
  amount : Option ℚ := none
deriving Repr

/-- The non-deterministic environment of one `lambda_handler` invocation:
the clock (for generated ids and timestamps), the random transaction suffix,
the callback id issued by `context.create_callback`, the Execution Log entry
for the `validate_payment` step (modelled from the spec: a `SUCCEEDED` step
record short-circuits `context.step` with the cached result), and the value
the fraud-review callback resolved to. -/
structure HandlerEnv where
  now : Nat
  rand : Nat
  callbackId : String
  validateCache : Option ValidatedDict := none
  reviewResult : ReviewVal := ReviewVal.other
deriving Repr

/-- The result dict returned by `lambda_handler`. -/
structure HandlerResult where
  payment_id : String
  status : String
  reason : Option String := none
  transaction_id : Option String := none
  amount : Option ℚ := none
deriving Repr, DecidableEq

/-- The `payment_data["payment_id"]` in force after app.py lines 166-169:
the event's id when Python-truthy, else `pay_{clock ms}`. -/
def pdataPid (event : PaymentEvent) (now : Nat) : String :=
  if truthyStr event.payment_id then event.payment_id.getD ""
  else "pay_" ++ toString now

/-- Steps 4-5 of the workflow (app.py lines 231-245): charge the payment,
send the notification, and build the `completed` result dict. -/
def chargePhase (store : Store) (payment_id : String) (amount : ℚ)
    (env : HandlerEnv) (trace : List OpCall) :
    HandlerResult × Store × List OpCall :=
  let cr := charge_payment store payment_id amount env.rand env.now
  let nr := send_notification cr.2 payment_id cr.1.transaction_id env.now
  ({ payment_id := payment_id, status := "completed",
     transaction_id := some cr.1.transaction_id, amount := some amount },
   nr.2, trace ++ [OpCall.charge payment_id, OpCall.notify payment_id])

/-- Step 3 of the workflow (app.py lines 203-229): register the callback id
on the record, await the fraud-review resolution (Modelled from the spec:
`result()` returns the resolution value, a `TIMED_OUT` marker on timeout),
parse a string value with `json.loads`, branch on
`isinstance(dict) and get("approved") == True`, record the approval result,
and either return the `rejected` dict or continue to the charge. -/
def reviewPhase (store : Store) (payment_id : String) (fraud_check : FraudDict)
    (amount : ℚ) (env : HandlerEnv) (trace : List OpCall) :
    Except String (HandlerResult × Store × List OpCall) :=
  let sa := set_awaiting_approval store payment_id env.callbackId
    fraud_check.risk_score env.now
  let trace1 := trace ++ [OpCall.setAwaiting payment_id]
  match pyLoadsIfStr env.reviewResult with
  | Except.error e => Except.error e
  | Except.ok rv =>
    let approved := isApprovedDict rv
    let ha := handle_approval_result sa.2 payment_id approved env.now
    let trace2 := trace1 ++ [OpCall.handleApproval payment_id]
    if approved then Except.ok (chargePhase ha.2 payment_id amount env trace2)
    else
      Except.ok ({ payment_id := payment_id, status := "rejected",
                   reason := some "approval_denied_or_timeout" }, ha.2, trace2)

/-- The workflow body after the validate step (app.py lines 176-245): read
the payment id and amount out of the validated (possibly cached) dict, reject
if its status is not `validated`, run the fraud check — index 0 of the
parallel fan-out's deterministic join (see `fanOutJoin`) — and branch into
the review phase or straight to the charge. -/
def afterValidate (validated : ValidatedDict) (store1 : Store) (env : HandlerEnv)
    (trace : List OpCall) : Except String (HandlerResult × Store × List OpCall) :=
  let payment_id := validated.payment_id
  if validated.status ≠ "validated" then
    Except.ok ({ payment_id := payment_id, status := "rejected",
                 reason := some "validation_failed" }, store1, trace)
  else
    let fc := check_fraud store1 payment_id validated.amount env.now
    let trace1 := trace ++ [OpCall.checkFraud payment_id, OpCall.verifyCustomer payment_id]
    if fc.1.requires_review then
      reviewPhase fc.2 payment_id fc.1 validated.amount env trace1
    else
      Except.ok (chargePhase fc.2 payment_id validated.amount env trace1)

/-- `lambda_handler` of app.py (lines 164-245).  `context.step` for the
validate step consults the Execution Log first (Modelled from the spec: a
cached `SUCCEEDED` record is returned without running the body); a raised
exception is `Except.error`. -/
def lambda_handler (event : PaymentEvent) (env : HandlerEnv) (store : Store) :
    Except String (HandlerResult × Store × List OpCall) :=
  let pid0 := pdataPid event env.now
  let vstep : Except String (ValidatedDict × Store) :=
    match env.validateCache with
    | some r => Except.ok (r, store)
    | none =>
      match validate_payment store pid0 event.amount env.now with
      | (Except.ok r, s) => Except.ok (r, s)
      | (Except.error e, _) => Except.error e
  match vstep with
  | Except.error e => Except.error e
  | Except.ok (validated, store1) =>
    afterValidate validated store1 env [OpCall.validate pid0]

/-- The payment ids a finished invocation used: the returned dict's id
followed by the id of every non-validate operation (the validate step is the
one that receives the regenerated id; everything after it uses the id from
the validated result). -/
def resultPids : Except String (HandlerResult × Store × List OpCall) → List String
  | Except.error _ => []
  | Except.ok (res, _, trace) =>
    res.payment_id :: (trace.filter (fun op => !OpCall.isValidate op)).map OpCall.pid

/-- Every successful review phase returns a result dict labelled with its
`payment_id` argument and appends only operations labelled with that id to
the trace it was given. -/
theorem reviewPhase_ok (store : Store) (pid : String) (fc : FraudDict)
    (amount : ℚ) (env : HandlerEnv) (trace : List OpCall)
    (out : HandlerResult × Store × List OpCall)
    (h : reviewPhase store pid fc amount env trace = Except.ok out) :
    out.1.payment_id = pid ∧
    (out.2.2 = trace ++ [OpCall.setAwaiting pid, OpCall.handleApproval pid] ∨
     out.2.2 = trace ++ [OpCall.setAwaiting pid, OpCall.handleApproval pid,
                         OpCall.charge pid, OpCall.notify pid]) := by
  unfold reviewPhase at h
  cases hl : pyLoadsIfStr env.reviewResult with
  | error e =>
    rw [hl] at h
    exact Except.noConfusion h
  | ok rv =>
    rw [hl] at h
    dsimp only at h
    by_cases happ : isApprovedDict rv = true
    · rw [if_pos happ] at h
      injection h with h
      subst h
      exact ⟨rfl, Or.inr (by simp [chargePhase])⟩
    · rw [if_neg happ] at h
      injection h with h
      subst h
      exact ⟨rfl, Or.inl (by simp)⟩

/-- Every payment id that `afterValidate` uses — in its result dict and in
every non-validate operation it issues — is the id from the validated dict,
provided the incoming trace holds only validate operations. -/
theorem afterValidate_pids (v : ValidatedDict) (store1 : Store) (env : HandlerEnv)
    (trace : List OpCall)
    (htrace : ∀ op ∈ trace, OpCall.isValidate op = true) :
    ∀ p ∈ resultPids (afterValidate v store1 env trace), p = v.payment_id := by
  intro p hp
  unfold afterValidate at hp
  dsimp only at hp
  by_cases hs : v.status ≠ "validated"
  · rw [if_pos hs] at hp
    simp [resultPids, List.mem_filter] at hp
    rcases hp with rfl | ⟨op, ⟨hmem, hnv⟩, rfl⟩
    · rfl
    · exact absurd (htrace op hmem) (by simp [hnv])
  · rw [if_neg hs] at hp
    by_cases hreq :
        (check_fraud store1 v.payment_id v.amount env.now).1.requires_review = true
    · rw [if_pos hreq] at hp
      cases hrev : reviewPhase (check_fraud store1 v.payment_id v.amount env.now).2
          v.payment_id (check_fraud store1 v.payment_id v.amount env.now).1
          v.amount env
          (trace ++ [OpCall.checkFraud v.payment_id, OpCall.verifyCustomer v.payment_id]) with
      | error e =>
        rw [hrev] at hp
        simp [resultPids] at hp
      | ok out =>
        obtain ⟨res, st, tr⟩ := out
        rw [hrev] at hp
        obtain ⟨h1, h2⟩ := reviewPhase_ok _ _ _ _ _ _ _ hrev
        dsimp only at h1 h2
        simp [resultPids, List.mem_filter] at hp
        rcases hp with rfl | ⟨op, ⟨hmem, hnv⟩, rfl⟩
        · exact h1
        · have key : op ∈ trace ∨ OpCall.pid op = v.payment_id := by
            rcases h2 with h2 | h2
            · rw [h2] at hmem
              simp only [List.append_assoc, List.mem_append, List.mem_cons,
                List.not_mem_nil, or_false, or_assoc] at hmem
              rcases hmem with hmem | rfl | rfl | rfl | rfl
              · exact Or.inl hmem
              all_goals exact Or.inr rfl
            · rw [h2] at hmem
              simp only [List.append_assoc, List.mem_append, List.mem_cons,
                List.not_mem_nil, or_false, or_assoc] at hmem
              rcases hmem with hmem | rfl | rfl | rfl | rfl | rfl | rfl
              · exact Or.inl hmem
              all_goals exact Or.inr rfl
          rcases key with hIn | hPid
          · exact absurd (htrace op hIn) (by simp [hnv])
          · exact hPid
    · rw [if_neg hreq] at hp
      simp [resultPids, chargePhase, List.mem_filter] at hp
      rcases hp with rfl | ⟨op, ⟨hmem, hnv⟩, rfl⟩ | ⟨op, ⟨hmem, hnv2⟩, rfl⟩
      · rfl
      · exact absurd (htrace op hmem) (by simp [hnv])
      · rcases hmem with rfl | rfl | rfl | rfl
        all_goals rfl

/-- C9: replay determinism of the payment identifier — whenever the
Execution Log carries a `SUCCEEDED` record `r` for the validate step, every
payment id the invocation uses afterwards (the fraud check, customer
verification, awaiting-approval update, approval handling, charge,
notification, and the returned result dict) equals `r.payment_id`, for every
event payload and every clock value, even though the handler regenerates
`payment_data["payment_id"]` from the current clock when the event omits
it. -/
theorem C9_replay_pid (event : PaymentEvent) (env : HandlerEnv) (store : Store)
    (r : ValidatedDict) (hc : env.validateCache = some r) :
    ∀ p ∈ resultPids (lambda_handler event env store), p = r.payment_id := by
  intro p hp
  unfold lambda_handler at hp
  rw [hc] at hp
  dsimp only at hp
  exact afterValidate_pids r store env [OpCall.validate (pdataPid event env.now)]
    (by intro op hop; simp at hop; subst hop; rfl) p hp

/-- Replay environment for C9: the validate step is cached with id `pid0`,
while the clock would generate `pay_999`. -/
def c9env : HandlerEnv :=
  { now := 999, rand := 7, callbackId := "cb",
    validateCache := some ⟨"pid0", "validated", 50⟩,
    reviewResult := ReviewVal.other }

/-- C9 (witness): on the replay with the cached validate record, the first
used payment id is a member of the invocation's ids and equals `pid0`. -/
theorem C9_replay_pid_witness :
    "pid0" = "pid0" ∧
    "pid0" ∈ resultPids (lambda_handler {} c9env emptyStore) := by
  have hL : resultPids (lambda_handler {} c9env emptyStore)
      = ["pid0", "pid0", "pid0", "pid0", "pid0"] := rfl
  exact ⟨C9_replay_pid {} c9env emptyStore ⟨"pid0", "validated", 50⟩ rfl "pid0"
      (by rw [hL]; exact List.mem_cons_self _ _),
    by rw [hL]; exact List.mem_cons_self _ _⟩

/-- The value `review_result` holds after the `json.loads` line, for values
on which `json.loads` does not raise. -/
def loadVal : ReviewVal → ReviewVal
  | ReviewVal.jstrOk w => w
  | v => v

/-- On every resolution value that is not an unparseable string, the
`json.loads` line succeeds and the subsequent approval test agrees with the
scope predicate `isApprovalValue`. -/
theorem pyLoads_spec (v : ReviewVal) (h : v ≠ ReviewVal.jstrBad) :
    pyLoadsIfStr v = Except.ok (loadVal v) ∧
    isApprovedDict (loadVal v) = isApprovalValue v := by
  cases v with
  | dict b => exact ⟨rfl, rfl⟩
  | jstrOk w => exact ⟨rfl, rfl⟩
  | jstrBad => exact absurd rfl h
  | other => exact ⟨rfl, rfl⟩

/-- A denied approval updates the record to `REJECTED` with the timeout/denial
reason. -/
theorem handle_approval_result_false (store : Store) (pid : String) (now : Nat) :
    (handle_approval_result store pid false now).2
      = update_payment_status store pid "REJECTED"
          { reason := some "approval_denied_or_timeout" } now := rfl

/-- The review phase on a non-approval, parseable resolution value: no
exception, the `rejected` result dict, the approval-denied record update,
and no charge operation. -/
theorem reviewPhase_reject (store : Store) (pid : String) (fc : FraudDict)
    (amount : ℚ) (env : HandlerEnv) (trace : List OpCall)
    (hparse : env.reviewResult ≠ ReviewVal.jstrBad)
    (happ : isApprovalValue env.reviewResult = false) :
    reviewPhase store pid fc amount env trace
      = Except.ok ({ payment_id := pid, status := "rejected",
                     reason := some "approval_denied_or_timeout" },
          update_payment_status
            (update_payment_status store pid "AWAITING_APPROVAL"
              { callback_id := some env.callbackId,
                risk_score := some (toString (round4 fc.risk_score)) } env.now)
            pid "REJECTED" { reason := some "approval_denied_or_timeout" } env.now,
          trace ++ [OpCall.setAwaiting pid, OpCall.handleApproval pid]) := by
  obtain ⟨h1, h2⟩ := pyLoads_spec env.reviewResult hparse
  have h3 : isApprovedDict (loadVal env.reviewResult) = false := h2.trans happ
  unfold reviewPhase
  rw [h1]
  dsimp only
  rw [h3]
  simp only [Bool.false_eq_true, if_false, List.append_assoc]
  rfl

/-- The review phase raises when the resolution value is a string that
`json.loads` cannot parse. -/
theorem reviewPhase_error (store : Store) (pid : String) (fc : FraudDict)
    (amount : ℚ) (env : HandlerEnv) (trace : List OpCall)
    (h : env.reviewResult = ReviewVal.jstrBad) :
    reviewPhase store pid fc amount env trace = Except.error "JSONDecodeError" := by
  unfold reviewPhase
  rw [h]
  rfl

/-- A fresh (uncached) run whose event carries an amount of at least 1000
always reaches the review phase, with all operations labelled by the
generated/propagated payment id, and the payments table keeps a record under
that id. -/
theorem lambda_handler_review_run (event : PaymentEvent) (env : HandlerEnv)
    (store : Store) (a : ℚ) (ha : event.amount = some a) (ha2 : 1000 ≤ a)
    (hc : env.validateCache = none) :
    lambda_handler event env store
      = reviewPhase
          (check_fraud (validate_payment store (pdataPid event env.now) (some a) env.now).2
            (pdataPid event env.now) a env.now).2
          (pdataPid event env.now)
          (check_fraud (validate_payment store (pdataPid event env.now) (some a) env.now).2
            (pdataPid event env.now) a env.now).1
          a env
          [OpCall.validate (pdataPid event env.now),
           OpCall.checkFraud (pdataPid event env.now),
           OpCall.verifyCustomer (pdataPid event env.now)] ∧
    ∃ it, (check_fraud (validate_payment store (pdataPid event env.now) (some a) env.now).2
            (pdataPid event env.now) a env.now).2 (pdataPid event env.now) = some it := by
  have hpos : ¬ (some a : Option ℚ).getD 0 ≤ 0 := by
    rw [Option.getD_some]
    linarith
  have hval1 : (validate_payment store (pdataPid event env.now) (some a) env.now).1
      = Except.ok { payment_id := pdataPid event env.now, status := "validated",
                    amount := a } := by
    unfold validate_payment
    dsimp only
    rw [if_neg hpos]
    rfl
  have hval2 : ∃ it,
      (validate_payment store (pdataPid event env.now) (some a) env.now).2
        (pdataPid event env.now) = some it := by
    unfold validate_payment
    dsimp only
    rw [if_neg hpos]
    dsimp only
    cases hsp : store (pdataPid event env.now) with
    | some it0 => exact update_keeps_mem _ _ _ _ _ _ it0 hsp
    | none =>
      exact update_keeps_mem _ _ _ _ _ _
        { amount := toString ((some a : Option ℚ).getD 0), status := "VALIDATING",
          created_at := env.now, updated_at := env.now }
        (by simp [Store.put])
  have hreq : (check_fraud
      (validate_payment store (pdataPid event env.now) (some a) env.now).2
      (pdataPid event env.now) a env.now).1.requires_review = true :=
    decide_eq_true ((riskScore_gt_iff a).mpr ha2)
  constructor
  · unfold lambda_handler
    rw [hc]
    dsimp only
    rw [ha]
    cases hvp : validate_payment store (pdataPid event env.now) (some a) env.now with
    | mk ve vs =>
      rw [hvp] at hval1
      dsimp only at hval1
      subst hval1
      dsimp only
      unfold afterValidate
      dsimp only
      rw [if_neg (by simp)]
      rw [hvp] at hreq
      dsimp only at hreq
      rw [if_pos hreq]
      rfl
  · obtain ⟨it, hit⟩ := hval2
    exact update_keeps_mem _ _ _ _ _ _ it hit

/-- C8 (amended): for every fraud-review resolution value other than an
unparseable string — any dict or parseable JSON string whose `approved` key
does not Python-equal `True`, and any other value including the timeout
outcome — a fresh high-risk run does not raise: it runs
`handle_approval_result` with `approved=False` (the record ends `REJECTED`
with reason `approval_denied_or_timeout`) and returns the `rejected` result
dict without ever invoking the charge step. -/
theorem C8_nonapproval_rejects (event : PaymentEvent) (env : HandlerEnv)
    (store : Store) (a : ℚ) (ha : event.amount = some a) (ha2 : 1000 ≤ a)
    (hc : env.validateCache = none)
    (hparse : env.reviewResult ≠ ReviewVal.jstrBad)
    (happ : isApprovalValue env.reviewResult = false) :
    ∃ stor tr,
      lambda_handler event env store
        = Except.ok ({ payment_id := pdataPid event env.now, status := "rejected",
                       reason := some "approval_denied_or_timeout" }, stor, tr) ∧
      (stor (pdataPid event env.now)).map (fun rec => (rec.status, rec.reason))
        = some ("REJECTED", some "approval_denied_or_timeout") ∧
      tr.all (fun op => !OpCall.isCharge op) = true := by
  obtain ⟨hrun, it, hit⟩ := lambda_handler_review_run event env store a ha ha2 hc
  rw [hrun, reviewPhase_reject _ _ _ _ _ _ hparse happ]
  refine ⟨_, _, rfl, ?_, rfl⟩
  obtain ⟨it2, hit2⟩ := update_keeps_mem _ _ _ "AWAITING_APPROVAL" _ _ it hit
  rw [update_reject_at _ _ _ _ it2 hit2]
  rfl

/-- Environment of a fresh high-risk run whose review callback resolved to
the timeout outcome. -/
def c8env : HandlerEnv :=
  { now := 5, rand := 1, callbackId := "cb8",
    validateCache := none, reviewResult := ReviewVal.other }

/-- C8 (witness): the amended claim at a concrete 2000-unit payment whose
review times out. -/
theorem C8_nonapproval_rejects_witness :
    ∃ stor tr,
      lambda_handler { payment_id := some "p8", amount := some 2000 } c8env emptyStore
        = Except.ok ({ payment_id := pdataPid { payment_id := some "p8", amount := some 2000 } c8env.now,
                       status := "rejected",
                       reason := some "approval_denied_or_timeout" }, stor, tr) ∧
      (stor (pdataPid { payment_id := some "p8", amount := some 2000 } c8env.now)).map
          (fun rec => (rec.status, rec.reason))
        = some ("REJECTED", some "approval_denied_or_timeout") ∧
      tr.all (fun op => !OpCall.isCharge op) = true :=
  C8_nonapproval_rejects { payment_id := some "p8", amount := some 2000 } c8env
    emptyStore 2000 rfl (by norm_num) rfl (by decide) rfl

/-- Environment identical to `c8env` except that the review callback
resolved to a string that is not valid JSON. -/
def c8envBad : HandlerEnv :=
  { now := 5, rand := 1, callbackId := "cb8",
    validateCache := none, reviewResult := ReviewVal.jstrBad }

/-- C8 (counterexample): a resolution value that is a non-JSON string is not
an approval value, yet `lambda_handler` raises (the `json.loads` call throws
`JSONDecodeError`) instead of returning the `rejected` dict — refuting the
claim for that resolution value. -/
theorem C8_counterexample :
    isApprovalValue ReviewVal.jstrBad = false ∧
    lambda_handler { payment_id := some "p8", amount := some 2000 } c8envBad emptyStore
      = Except.error "JSONDecodeError" := by
  refine ⟨rfl, ?_⟩
  obtain ⟨hrun, -⟩ := lambda_handler_review_run
    { payment_id := some "p8", amount := some 2000 } c8envBad emptyStore 2000
    rfl (by norm_num) rfl
  rw [hrun, reviewPhase_error]
  rfl

/-- Modelled from the spec: the Parallel Fan-Out Coordinator runs the step
groups concurrently; the physical completion order is an arbitrary list of
group indices, and each completion appends the pair (index, result) to a
completion log. -/
def fanOutCompleted {α : Type} (groups : List (Unit → α))
    (completionOrder : List Nat) : List (Nat × α) :=
  completionOrder.filterMap (fun i => (groups.get? i).map (fun g => (i, g ())))

/-- Deterministic join: walk the input slots in order, reading each slot's
result from the completion log. -/
def joinSlots {α : Type} (completed : List (Nat × α)) :
    Nat → List (Unit → α) → List α
  | _, [] => []
  | i, _ :: rest =>
    match completed.lookup i with
    | some v => v :: joinSlots completed (i + 1) rest
    | none => joinSlots completed (i + 1) rest

/-- Modelled from the spec: `runAll` of the Parallel Fan-Out Coordinator —
run the groups in the given physical completion order, then join the results
deterministically in input-slot order. -/
def fanOutJoin {α : Type} (groups : List (Unit → α))
    (completionOrder : List Nat) : List α :=
  joinSlots (fanOutCompleted groups completionOrder) 0 groups

/-- A completed group's slot in the completion log holds exactly that
group's result, whatever position the completion occupies. -/
theorem lookup_fanOutCompleted {α : Type} (groups : List (Unit → α))
    (order : List Nat) (i : Nat) (g : Unit → α)
    (hg : groups.get? i = some g) (hi : i ∈ order) :
    (fanOutCompleted groups order).lookup i = some (g ()) := by
  induction order with
  | nil => exact absurd hi (List.not_mem_nil i)
  | cons j rest ih =>
    rw [fanOutCompleted, List.filterMap_cons]
    cases hj : groups.get? j with
    | none =>
      have hij : i ≠ j := fun h => by rw [h, hj] at hg; exact Option.noConfusion hg
      rw [Option.map_none']
      exact ih ((List.mem_cons.mp hi).resolve_left hij)
    | some gj =>
      rw [Option.map_some']
      by_cases hij : i = j
      · subst hij
        rw [hj] at hg
        injection hg with hg
        subst hg
        simp [List.lookup]
      · have hirest : i ∈ rest := (List.mem_cons.mp hi).resolve_left hij
        have hne : (i == j) = false := beq_eq_false_iff_ne.mpr hij
        simp only [List.lookup, hne]
        exact ih hirest

/-- Joining from slot `i0` returns the groups' own results in input order
whenever the completion log answers every slot. -/
theorem joinSlots_eq_map {α : Type} (rest : List (Unit → α))
    (completed : List (Nat × α)) (i0 : Nat)
    (h : ∀ j g, rest.get? j = some g → completed.lookup (i0 + j) = some (g ())) :
    joinSlots completed i0 rest = rest.map (fun g => g ()) := by
  induction rest generalizing i0 with
  | nil => rfl
  | cons g rest ih =>
    have h0 : completed.lookup i0 = some (g ()) := by
      have := h 0 g rfl
      rwa [Nat.add_zero] at this
    rw [joinSlots, h0]
    dsimp only
    rw [List.map_cons]
    congr 1
    apply ih
    intro j gj hj
    have := h (j + 1) gj (by rwa [List.get?_cons_succ])
    rwa [show i0 + (j + 1) = i0 + 1 + j by omega] at this

/-- The result dicts of the two groups of the payment processor's
`fraud-and-customer-checks` fan-out. -/
inductive ParResult where
  | fraud (f : FraudDict) : ParResult
  | customer (payment_id : String) (customer_verified : Bool) : ParResult
deriving Repr, DecidableEq

/-- The two step groups passed to `context.parallel` in app.py line 198:
slot 0 is `run_fraud_check`, slot 1 is `verify_customer` (whose lambda
returns `{"payment_id": payment_id, "customer_verified": True}`). -/
def paymentParallelGroups (store : Store) (payment_id : String) (amount : ℚ)
    (now : Nat) : List (Unit → ParResult) :=
  [fun _ => ParResult.fraud (check_fraud store payment_id amount now).1,
   fun _ => ParResult.customer payment_id true]

/-- C3: the parallel fan-out's joined result list is in input-group order for
every completion order covering the groups; in particular, for the payment
processor's two groups, index 0 is always `run_fraud_check`'s result and
index 1 is `verify_customer`'s, for every completion timing. -/
theorem C3_parallel_order :
    (∀ (α : Type) (groups : List (Unit → α)) (order : List Nat),
      (∀ i, i < groups.length → i ∈ order) →
      fanOutJoin groups order = groups.map (fun g => g ())) ∧
    (∀ (store : Store) (payment_id : String) (amount : ℚ) (now : Nat)
        (order : List Nat), (∀ i, i < 2 → i ∈ order) →
      fanOutJoin (paymentParallelGroups store payment_id amount now) order
        = [ParResult.fraud (check_fraud store payment_id amount now).1,
           ParResult.customer payment_id true]) := by
  have main : ∀ (α : Type) (groups : List (Unit → α)) (order : List Nat),
      (∀ i, i < groups.length → i ∈ order) →
      fanOutJoin groups order = groups.map (fun g => g ()) := by
    intro α groups order hcov
    unfold fanOutJoin
    apply joinSlots_eq_map
    intro j g hj
    rw [Nat.zero_add]
    have hlt : j < groups.length := by
      cases hlt : decide (j < groups.length) with
      | true => exact of_decide_eq_true hlt
      | false =>
        rw [List.get?_eq_none.mpr (Nat.le_of_not_lt (of_decide_eq_false hlt))] at hj
        exact Option.noConfusion hj
    exact lookup_fanOutCompleted groups order j g hj (hcov j hlt)
  refine ⟨main, ?_⟩
  intro store payment_id amount now order hcov
  exact main ParResult (paymentParallelGroups store payment_id amount now) order
    (by intro i hi; exact hcov i hi)

/-- C3 (witness): with completion order `[1, 0]` (the customer verification
finishes first) the joined results still list the fraud check at index 0. -/
theorem C3_parallel_order_witness :
    fanOutJoin (paymentParallelGroups emptyStore "p3" 50 0) [1, 0]
      = [ParResult.fraud (check_fraud emptyStore "p3" 50 0).1,
         ParResult.customer "p3" true] :=
  C3_parallel_order.2 emptyStore "p3" 50 0 [1, 0]
    (by
      intro i hi
      interval_cases i
      · simp
      · simp)

end Reinvent
